import Mathlib

/-!
Verification of the 16x16 LED matrix game system against its design
specification.  The definitions below are shallow embeddings of the C
sources: `src/src/WS2812.c` (the WS2812 strip driver), `src/unnamed/part_000`
(the main game application with the menu selection state machine) and
`src/unnamed/part_001` (an earlier variant of the application containing its
own WS2812 encoder).  Machine integers are modelled as `Nat`/`Int`; C's
truncating signed division is `Int.tdiv`.
-/

/-! ## WS2812 timing constants (WS2812.c lines 11-14, part_001 lines 67-70) -/

def WS2812_T0H_NS : Nat := 400
def WS2812_T0L_NS : Nat := 850
def WS2812_T1H_NS : Nat := 800
def WS2812_T1L_NS : Nat := 450

/-- One RMT item: a (level0, duration0) high phase followed by a
(level1, duration1) low phase, durations in peripheral clock ticks.
Mirrors `rmt_item32_t` as used by both encoder variants. -/
structure rmt_item where
  level0 : Nat
  duration0 : Nat
  level1 : Nat
  duration1 : Nat
deriving DecidableEq, Repr

/-- The pulse pair written for a single bit by `ws2812_write_byte` in
WS2812.c lines 93-110: a set bit uses the T1 constants divided by 25, a
clear bit the T0 constants divided by 25. -/
def ws2812_bit_item (b : Bool) : rmt_item :=
  if b then
    { level0 := 1, duration0 := WS2812_T1H_NS / 25,
      level1 := 0, duration1 := WS2812_T1L_NS / 25 }
  else
    { level0 := 1, duration0 := WS2812_T0H_NS / 25,
      level1 := 0, duration1 := WS2812_T0L_NS / 25 }

/-- The byte encoder of WS2812.c (`ws2812_write_byte`): the loop walks bit 7
down to bit 0, so item `k` of the result carries bit `7 - k` of the byte.
The C test `byte & (1 << bit)` is `Nat.testBit byte bit`. -/
def ws2812_write_byte (byte : Nat) : List rmt_item :=
  (List.range 8).map (fun k => ws2812_bit_item (byte.testBit (7 - k)))

/-- The pulse pair written for a single bit by `ws2812_write` in part_001
lines 79-89: each nanosecond constant goes through `/ 10 * 8 / 100` with C
integer truncation at each step. -/
def ws2812_write_item (b : Bool) : rmt_item :=
  if b then
    { level0 := 1, duration0 := WS2812_T1H_NS / 10 * 8 / 100,
      level1 := 0, duration1 := WS2812_T1L_NS / 10 * 8 / 100 }
  else
    { level0 := 1, duration0 := WS2812_T0H_NS / 10 * 8 / 100,
      level1 := 0, duration1 := WS2812_T0L_NS / 10 * 8 / 100 }

/-- The encoder of part_001 (`ws2812_write`, lines 72-96): for each data byte
in order, eight items, most significant bit first. -/
def ws2812_write (data : List Nat) : List rmt_item :=
  (data.map (fun byte =>
    (List.range 8).map (fun k => ws2812_write_item (byte.testBit (7 - k))))).flatten

/-- Modelled from the spec: the RMT peripheral tick period implied by the
configured clock divider, in picoseconds.  The peripheral's 80 MHz source
clock is hardware context outside the repository; WS2812.c's own comment
states that `clk_div = 2` yields a 40 MHz tick clock, i.e. one divider unit
is 12.5 ns = 12500 ps. -/
def rmt_tick_ps (clk_div : Nat) : Nat := 12500 * clk_div

/-- Clock divider configured by `ws2812_init` in WS2812.c line 39. -/
def ws2812c_clk_div : Nat := 2

/-- Clock divider configured by `init_ws2812` in part_001 line 100. -/
def part001_clk_div : Nat := 1

/-- Nominal WS2812 bit period (1250 ns) in picoseconds. -/
def ws2812_bit_period_ps : Nat := 1250000

/-! ## Pixel buffer / strip driver (WS2812.c) -/

/-- A pixel: three 8-bit channel intensities, as `ws2812_pixel_t`. -/
structure ws2812_pixel where
  r : Nat
  g : Nat
  b : Nat
deriving DecidableEq, Repr

/-- The strip: pixel buffer plus brightness.  `pixel_count` of the C struct
is the length of the pixel list. -/
structure ws2812_strip where
  pixels : List ws2812_pixel
  brightness : Nat
deriving DecidableEq, Repr

/-- The pulse train built by `ws2812_show` (WS2812.c lines 124-137): pixels
in index order, each channel scaled by `brightness / 255` with integer
truncation, bytes emitted in G, R, B wire order, each byte through
`ws2812_write_byte`. -/
def ws2812_show_train (s : ws2812_strip) : List rmt_item :=
  (s.pixels.map (fun p =>
    ws2812_write_byte (p.g * s.brightness / 255) ++
    ws2812_write_byte (p.r * s.brightness / 255) ++
    ws2812_write_byte (p.b * s.brightness / 255))).flatten

/-- The byte sequence underlying `ws2812_show_train`: the scaled G, R, B
bytes of every pixel in index order. -/
def ws2812_show_bytes (s : ws2812_strip) : List Nat :=
  (s.pixels.map (fun p =>
    [p.g * s.brightness / 255, p.r * s.brightness / 255,
     p.b * s.brightness / 255])).flatten

/-- What `ws2812_show` (WS2812.c lines 112-147) hands to the RMT peripheral.
A NULL strip is `none`; `alloc_ok` is whether the `malloc` of the item
buffer succeeded.  `none` as a result means nothing is transmitted: the
function returns early on a NULL strip (line 113) and on allocation failure
(lines 117-120), in both cases before any call to `rmt_write_items`. -/
def ws2812_show_effect (strip : Option ws2812_strip) (alloc_ok : Bool) :
    Option (List rmt_item) :=
  match strip with
  | none => none
  | some s => if alloc_ok then some (ws2812_show_train s) else none

/-- The value `ws2812_show` returns to its caller.  The C function has
return type `void`, so the caller receives the same unit value on every
path, including the allocation-failure path (which only logs). -/
def ws2812_show_caller_result (_strip : Option ws2812_strip)
    (_alloc_ok : Bool) : Unit := ()

/-- `ws2812_set_pixel` (WS2812.c lines 65-71): guarded by
`strip && index < strip->pixel_count`; out of range or NULL is a no-op. -/
def ws2812_set_pixel (strip : Option ws2812_strip) (index r g b : Nat) :
    Option ws2812_strip :=
  match strip with
  | none => none
  | some s =>
    if index < s.pixels.length then
      some { s with pixels := s.pixels.set index { r := r, g := g, b := b } }
    else
      some s

/-- `ws2812_set_pixel_rgb` (WS2812.c lines 73-77). -/
def ws2812_set_pixel_rgb (strip : Option ws2812_strip) (index : Nat)
    (color : ws2812_pixel) : Option ws2812_strip :=
  match strip with
  | none => none
  | some s =>
    if index < s.pixels.length then
      some { s with pixels := s.pixels.set index color }
    else
      some s

/-- `ws2812_get_pixel` (WS2812.c lines 79-85): starts from black and only
reads the buffer when the strip is non-NULL and the index in range. -/
def ws2812_get_pixel (strip : Option ws2812_strip) (index : Nat) :
    ws2812_pixel :=
  match strip with
  | none => { r := 0, g := 0, b := 0 }
  | some s => s.pixels.getD index { r := 0, g := 0, b := 0 }

/-- `ws2812_clear` (WS2812.c lines 87-91): `memset` of the pixel buffer to
zero, guarded by `strip && strip->pixels`. -/
def ws2812_clear (strip : Option ws2812_strip) : Option ws2812_strip :=
  match strip with
  | none => none
  | some s =>
    some { s with pixels := List.replicate s.pixels.length { r := 0, g := 0, b := 0 } }

/-- `ws2812_set_brightness` (WS2812.c lines 59-63). -/
def ws2812_set_brightness (strip : Option ws2812_strip) (brightness : Nat) :
    Option ws2812_strip :=
  match strip with
  | none => none
  | some s => some { s with brightness := brightness }

/-- `ws2812_free` (WS2812.c lines 49-57): releases the strip; the result is
the (now invalid) handle state.  On NULL it is a guarded no-op. -/
def ws2812_free (strip : Option ws2812_strip) : Option ws2812_strip :=
  match strip with
  | none => none
  | some _ => none

/-! ## Matrix coordinate mapper (part_000 lines 117-132, part_001 lines 138-148) -/

def MATRIX_WIDTH : Int := 16
def MATRIX_HEIGHT : Int := 16

/-- `get_index` of part_000.  The function returns
`y * MATRIX_WIDTH + (MATRIX_WIDTH - 1 - x)` unconditionally on line 121;
the serpentine `if (y % 2 == 0)` block on lines 125-131 sits after that
`return` and is dead code, so every row is reversed. -/
def get_index_v0 (x y : Int) : Int :=
  if x < 0 ∨ MATRIX_WIDTH ≤ x ∨ y < 0 ∨ MATRIX_HEIGHT ≤ y then -1
  else y * MATRIX_WIDTH + (MATRIX_WIDTH - 1 - x)

/-- `get_index` of part_001: even rows run left to right, odd rows are
reversed. -/
def get_index_v1 (x y : Int) : Int :=
  if x < 0 ∨ MATRIX_WIDTH ≤ x ∨ y < 0 ∨ MATRIX_HEIGHT ≤ y then -1
  else if y % 2 = 0 then y * MATRIX_WIDTH + x
  else y * MATRIX_WIDTH + (MATRIX_WIDTH - 1 - x)

/-- The spec's canonical serpentine rule, written from the claim's words:
even rows map column x to `y*16 + (15 - x)`, odd rows to `y*16 + x`, with
the same -1 sentinel.  Stated only to be compared with the two source
implementations. -/
def get_index_spec_rule (x y : Int) : Int :=
  if x < 0 ∨ 16 ≤ x ∨ y < 0 ∨ 16 ≤ y then -1
  else if y % 2 = 0 then y * 16 + (15 - x)
  else y * 16 + x

/-! ## Distance sensor reader (part_000 lines 145-185) -/

/-- State of the synthetic fallback generator: the `static` locals
`sim_dist` and `dir` of `read_tof_sensor` in part_000.  `sim_dist` is a
`uint16_t` and `dir` an `int`; on every reachable state the arithmetic
stays far from the unsigned wrap, so plain integers are faithful. -/
structure tof_sim_state where
  sim_dist : Int
  dir : Int
deriving DecidableEq, Repr

/-- Initial values of the `static` locals (lines 174-175). -/
def tof_sim_init : tof_sim_state := { sim_dist := 200, dir := 1 }

/-- One fallback update (lines 176-178): step by `dir * 5`, then flip the
direction after overshooting either bound. -/
def tof_sim_step (s : tof_sim_state) : tof_sim_state :=
  let d := s.sim_dist + s.dir * 5
  let dir1 := if d > 350 then -1 else s.dir
  let dir2 := if d < 100 then 1 else dir1
  { sim_dist := d, dir := dir2 }

/-- Clamp of a successful hardware reading into [50, 400]
(lines 163-164). -/
def tof_clamp (raw : Int) : Int :=
  if raw < 50 then 50 else if raw > 400 then 400 else raw

/-- `read_tof_sensor` of part_000: `hw = some raw` is a successful hardware
read (sensor present and `tof_sensor->read` returned true), `hw = none` is
any hardware failure.  Success returns the clamped raw value and leaves the
fallback state alone; failure steps the synthetic triangle wave and returns
its new value.  The log throttling counter does not affect the value and is
omitted. -/
def read_tof_sensor (hw : Option Int) (s : tof_sim_state) :
    Int × tof_sim_state :=
  match hw with
  | some raw => (tof_clamp raw, s)
  | none =>
    let s2 := tof_sim_step s
    (s2.sim_dist, s2)

/-- The fallback state after `n` failed reads starting from the initial
static locals. -/
def tof_sim_iter : Nat → tof_sim_state
  | 0 => tof_sim_init
  | n + 1 => tof_sim_step (tof_sim_iter n)

/-! ## Position mapper (part_000 lines 187-201, part_001 lines 184-190) -/

/-- `get_sensor_position`, identical in both variants, as a function of the
distance sample it reads: `pos = ((dist - 50) * 15) / 350` with C's
truncating division, then clamped into [0, 15].  `dist` is a `uint16_t`
promoted to `int` before the subtraction. -/
def get_sensor_position (dist : Int) : Int :=
  let pos := Int.tdiv ((dist - 50) * 15) 350
  let pos1 := if pos < 0 then 0 else pos
  if pos1 > 15 then 15 else pos1

/-- The claim's formula for the position map, written from the spec's
words: `clamp(round((distance_mm - 50) * 15 / 350), 0, 15)` with `round`
the rounding of the exact rational value to the nearest integer.  Stated
only to be compared with `get_sensor_position`. -/
def position_spec_round (dist : Int) : Int :=
  max 0 (min 15 (round (((dist : ℚ) - 50) * 15 / 350)))

/-- The truncating counterpart of `position_spec_round`: floor division of
the nonnegative numerator, as C computes it for clamped samples. -/
def position_floor_rule (dist : Int) : Int :=
  max 0 (min 15 (((dist - 50) * 15) / 350))

/-! ## Menu selection state machine (part_000 game_task, lines 972-1064) -/

/-- `game_mode_t` of part_000.  `catch` is a Lean keyword, hence
`catch_game`. -/
inductive game_mode where
  | menu
  | pong
  | flappy
  | catch_game
  | invaders
deriving DecidableEq, Repr

def MIN_SELECTION_DISTANCE : Int := 100
def MAX_SELECTION_DISTANCE : Int := 350
def SELECTION_HOLD_TIME : Nat := 5000

/-- The globals read and written by the MENU branch of `game_task`:
`current_mode`, `menu_selection`, `last_stable_selection` (both `int`, -1
meaning no candidate) and `selection_start_time` (`uint32_t`
milliseconds). -/
structure game_state where
  current_mode : game_mode
  menu_selection : Int
  last_stable_selection : Int
  selection_start_time : Nat
deriving DecidableEq, Repr

/-- Initial values of the globals (part_000 lines 44-47). -/
def game_state_init : game_state :=
  { current_mode := game_mode.menu, menu_selection := -1,
    last_stable_selection := -1, selection_start_time := 0 }

/-- The menu quadrant computed from a distance sample:
`get_sensor_position() / 4`, clamped to 3 (lines 986-987). -/
def quadrant_of (d : Int) : Int :=
  let q := Int.tdiv (get_sensor_position d) 4
  if q > 3 then 3 else q

/-- The game entered when the selection `sel` is confirmed (the `switch` on
lines 1012-1033).  The C `switch` has no default, so any other value leaves
`current_mode` at MENU. -/
def game_mode_of_selection (sel : Int) : game_mode :=
  if sel = 0 then game_mode.pong
  else if sel = 1 then game_mode.flappy
  else if sel = 2 then game_mode.catch_game
  else if sel = 3 then game_mode.invaders
  else game_mode.menu

/-- One 50 ms iteration of `game_task` restricted to the selection state:
`d` is the tick's distance sample and `now` the value of
`esp_timer_get_time() / 1000` in milliseconds.  Returns the new state and
whether this tick confirmed a selection.  Two abstractions, both noted
against the source: the C loop reads the sensor twice per menu tick (once
into `sensor_distance`, once inside `get_sensor_position`); the embedding
feeds the same per-tick sample to both uses.  When `current_mode` is not
MENU the loop runs the active game, which never touches the selection
globals and never confirms; game-over transitions back to MENU are outside
a single menu episode and are modelled as absorbing. -/
def game_tick (s : game_state) (d : Int) (now : Nat) : game_state × Bool :=
  if s.current_mode ≠ game_mode.menu then (s, false)
  else if MIN_SELECTION_DISTANCE ≤ d ∧ d ≤ MAX_SELECTION_DISTANCE then
    let q := quadrant_of d
    if q ≠ s.last_stable_selection then
      ({ s with menu_selection := q, last_stable_selection := q,
                selection_start_time := now }, false)
    else if SELECTION_HOLD_TIME ≤ now - s.selection_start_time then
      ({ current_mode := game_mode_of_selection s.menu_selection,
         menu_selection := -1, last_stable_selection := -1,
         selection_start_time := 0 }, true)
    else (s, false)
  else
    ({ s with menu_selection := -1, last_stable_selection := -1,
              selection_start_time := 0 }, false)

/-- Run `game_tick` over a list of (sample, time) pairs, counting
confirmations. -/
def game_run (s : game_state) (l : List (Int × Nat)) : game_state × Nat :=
  l.foldl
    (fun acc p =>
      let r := game_tick acc.1 p.1 p.2
      (r.1, acc.2 + (if r.2 then 1 else 0)))
    (s, 0)

/-- The tick schedule of the 50 ms game loop: tick `k` happens at time
`t0 + 50 * k` and carries the sample `ds k`. -/
def game_ticks (ds : Nat → Int) (t0 n : Nat) : List (Int × Nat) :=
  (List.range n).map (fun k => (ds k, t0 + 50 * k))

/-! ## Theorems -/

lemma ws2812_write_byte_eq (byte : Nat) :
    ws2812_write_byte byte =
      [ws2812_bit_item (byte.testBit 7), ws2812_bit_item (byte.testBit 6),
       ws2812_bit_item (byte.testBit 5), ws2812_bit_item (byte.testBit 4),
       ws2812_bit_item (byte.testBit 3), ws2812_bit_item (byte.testBit 2),
       ws2812_bit_item (byte.testBit 1), ws2812_bit_item (byte.testBit 0)] := rfl

/-- C3: for every input byte, the WS2812.c pulse encoder produces exactly 8
pulse pairs, most significant bit first (item k carries bit 7-k); a set bit
yields the long-high/short-low "1" pair whose tick durations correspond to
800 ns high / 450 ns low at the 25 ns tick, a clear bit the
short-high/long-low "0" pair (400 ns high / 850 ns low); encoding 0xFF
yields 8 "1" pairs and encoding 0x00 yields 8 "0" pairs. -/
theorem C3_pulse_encoder : ∀ byte : Nat,
    (ws2812_write_byte byte).length = 8 ∧
    (∀ k : Nat, k < 8 →
      (ws2812_write_byte byte).getD k { level0 := 0, duration0 := 0, level1 := 0, duration1 := 0 } =
        (if byte.testBit (7 - k) then
          { level0 := 1, duration0 := 32, level1 := 0, duration1 := 18 }
         else
          { level0 := 1, duration0 := 16, level1 := 0, duration1 := 34 })) ∧
    (32 * 25 = WS2812_T1H_NS ∧ 18 * 25 = WS2812_T1L_NS ∧
     16 * 25 = WS2812_T0H_NS ∧ 34 * 25 = WS2812_T0L_NS ∧ 18 < 32 ∧ 16 < 34) ∧
    ws2812_write_byte 255 =
      List.replicate 8 { level0 := 1, duration0 := 32, level1 := 0, duration1 := 18 } ∧
    ws2812_write_byte 0 =
      List.replicate 8 { level0 := 1, duration0 := 16, level1 := 0, duration1 := 34 } := by
  intro byte
  refine ⟨rfl, ?_, by decide, by decide, by decide⟩
  intro k hk
  interval_cases k <;>
    · rw [ws2812_write_byte_eq]
      rcases h : byte.testBit _ <;>
        simp [ws2812_bit_item, h, WS2812_T1H_NS, WS2812_T1L_NS, WS2812_T0H_NS, WS2812_T0L_NS]

/-- C3 witness: the theorem instantiated at byte 0xA5 and bit index 0
(bit 7 of 0xA5 is set, so the first pair uses the "1" timing). -/
theorem C3_pulse_encoder_witness :
    (ws2812_write_byte 165).getD 0 { level0 := 0, duration0 := 0, level1 := 0, duration1 := 0 } =
      (if Nat.testBit 165 (7 - 0) then
        { level0 := 1, duration0 := 32, level1 := 0, duration1 := 18 }
       else
        { level0 := 1, duration0 := 16, level1 := 0, duration1 := 34 }) :=
  (C3_pulse_encoder 165).2.1 0 (by decide)

/-- C4: the part_001 encoder variant does not derive its tick counts from
the tick period implied by its own configured clock divider.  With
`clk_div = 1` the RMT tick is 12500 ps, so one bit pair should span
1250000 ps / 12500 ps = 100 ticks; `ws2812_write` emits pairs spanning
6 + 3 = 9 ticks (112500 ps) for a set bit and 3 + 6 = 9 ticks for a clear
bit, an order of magnitude short of the nominal 1250 ns bit period.  The
WS2812.c encoder, with `clk_div = 2` (25000 ps tick), does meet the
nominal period exactly: 32 + 18 = 16 + 34 = 50 ticks = 1250000 ps. -/
theorem C4_bit_period_eval :
    ((ws2812_write_item true).duration0 + (ws2812_write_item true).duration1) *
        rmt_tick_ps part001_clk_div = 112500 ∧
    ((ws2812_write_item false).duration0 + (ws2812_write_item false).duration1) *
        rmt_tick_ps part001_clk_div = 112500 ∧
    (112500 : Nat) ≠ ws2812_bit_period_ps ∧
    (∀ b : Bool,
      ((ws2812_bit_item b).duration0 + (ws2812_bit_item b).duration1) *
          rmt_tick_ps ws2812c_clk_div = ws2812_bit_period_ps) := by
  refine ⟨by decide, by decide, by decide, ?_⟩
  intro b
  cases b <;> decide

lemma ws2812_show_train_eq_bytes (pixels : List ws2812_pixel) (br : Nat) :
    ws2812_show_train { pixels := pixels, brightness := br } =
      ((ws2812_show_bytes { pixels := pixels, brightness := br }).map ws2812_write_byte).flatten := by
  induction pixels with
  | nil => rfl
  | cons p t ih =>
    simp only [ws2812_show_train, ws2812_show_bytes, List.map_cons, List.flatten_cons] at ih ⊢
    rw [ih]
    simp [List.append_assoc]

/-- C5: the transmit path processes pixels in index order, scales each
channel by brightness/255 with integer truncation, and emits each pixel's
channels in green, red, blue wire order: the pulse train is exactly the
concatenated encodings of `ws2812_show_bytes`, whose entries are the scaled
G, R, B bytes pixel by pixel; in particular a strip whose pixel 0 is
(255, 0, 0) at brightness 128 transmits the bytes (0, 128, 0) for pixel 0,
with the scaled value 255 * 128 / 255 = 128. -/
theorem C5_transmit_grb :
    (∀ s : ws2812_strip,
      ws2812_show_train s = ((ws2812_show_bytes s).map ws2812_write_byte).flatten) ∧
    ws2812_show_bytes { pixels := [{ r := 255, g := 0, b := 0 }], brightness := 128 } =
      [0, 128, 0] ∧
    255 * 128 / 255 = 128 ∧
    ws2812_show_train { pixels := [{ r := 255, g := 0, b := 0 }], brightness := 128 } =
      ws2812_write_byte 0 ++ ws2812_write_byte 128 ++ ws2812_write_byte 0 := by
  refine ⟨?_, by decide, by decide, by decide⟩
  intro s
  cases s with
  | mk pixels br => exact ws2812_show_train_eq_bytes pixels br

/-- C9 counterexample: on allocation failure `ws2812_show` transmits
nothing, but the caller-visible result is identical to the success case
(the C function returns void), so no failure is reported to the caller. -/
theorem C9_no_report_counterexample :
    ws2812_show_caller_result
        (some { pixels := [{ r := 255, g := 0, b := 0 }], brightness := 128 }) false =
      ws2812_show_caller_result
        (some { pixels := [{ r := 255, g := 0, b := 0 }], brightness := 128 }) true ∧
    ws2812_show_effect
        (some { pixels := [{ r := 255, g := 0, b := 0 }], brightness := 128 }) false = none :=
  ⟨rfl, rfl⟩

/-- C9 amended: if the pulse-train allocation fails, the transmission is
aborted before anything is handed to the peripheral (no partial or garbled
write; a successful transmit always hands over the complete train), but the
function's void return carries no failure indication to the caller. -/
theorem C9_abort_amended :
    (∀ strip : Option ws2812_strip, ws2812_show_effect strip false = none) ∧
    (∀ s : ws2812_strip, ws2812_show_effect (some s) true = some (ws2812_show_train s)) ∧
    (∀ strip : Option ws2812_strip, ∀ a : Bool, ws2812_show_caller_result strip a = ()) := by
  refine ⟨?_, fun s => rfl, fun strip a => rfl⟩
  intro strip
  cases strip <;> rfl

/-- C10: every public strip operation tolerates a NULL (`none`) strip
handle: the mutators are no-ops, `ws2812_show` transmits nothing, and
`ws2812_get_pixel` returns black, all without touching the pixel buffer. -/
theorem C10_null_safe :
    (∀ i r g b : Nat, ws2812_set_pixel none i r g b = none) ∧
    (∀ i : Nat, ∀ c : ws2812_pixel, ws2812_set_pixel_rgb none i c = none) ∧
    ws2812_clear none = none ∧
    (∀ br : Nat, ws2812_set_brightness none br = none) ∧
    (∀ a : Bool, ws2812_show_effect none a = none) ∧
    ws2812_free none = none ∧
    (∀ i : Nat, ws2812_get_pixel none i = { r := 0, g := 0, b := 0 }) :=
  ⟨fun _ _ _ _ => rfl, fun _ _ => rfl, rfl, fun _ => rfl, fun _ => rfl, rfl, fun _ => rfl⟩

/-- C6 counterexample: neither source variant implements the claim's
canonical serpentine rule.  part_000's `get_index` reverses odd rows too
(the serpentine branch is dead code behind an unconditional return):
at (x, y) = (0, 1) it returns 31 where the rule gives 16.  part_001
reverses the opposite parity: at (0, 0) it returns 0 where the rule
gives 15. -/
theorem C6_parity_counterexample :
    get_index_v0 0 1 = 31 ∧ get_index_spec_rule 0 1 = 16 ∧
    get_index_v1 0 0 = 0 ∧ get_index_spec_rule 0 0 = 15 ∧
    (31 : Int) ≠ 16 ∧ (0 : Int) ≠ 15 := by
  refine ⟨by decide, by decide, by decide, by decide, by decide, by decide⟩

/-- C6 amended: for valid coordinates part_000's `get_index` maps (x, y) to
`y*16 + (15 - x)` for every row (all rows reversed, no serpentine
alternation), while part_001's maps even rows to `y*16 + x` and odd rows to
`y*16 + (15 - x)` (the opposite parity of the claimed rule); both return
the sentinel -1 for every out-of-range coordinate, and -1 is distinct from
every valid index, which lie in [0, 255]. -/
theorem C6_index_amended :
    (∀ x y : Int, 0 ≤ x → x < 16 → 0 ≤ y → y < 16 →
      get_index_v0 x y = y * 16 + (15 - x) ∧
      get_index_v1 x y = (if y % 2 = 0 then y * 16 + x else y * 16 + (15 - x)) ∧
      0 ≤ get_index_v0 x y ∧ get_index_v0 x y ≤ 255 ∧
      0 ≤ get_index_v1 x y ∧ get_index_v1 x y ≤ 255) ∧
    (∀ x y : Int, (x < 0 ∨ 16 ≤ x ∨ y < 0 ∨ 16 ≤ y) →
      get_index_v0 x y = -1 ∧ get_index_v1 x y = -1) := by
  constructor
  · intro x y hx hx16 hy hy16
    simp only [get_index_v0, get_index_v1, MATRIX_WIDTH, MATRIX_HEIGHT]
    rw [if_neg (by omega), if_neg (by omega)]
    refine ⟨by norm_num, rfl, ?_, ?_, ?_, ?_⟩ <;> by_cases h2 : y % 2 = 0 <;>
      simp [h2] <;> omega
  · intro x y h
    simp only [get_index_v0, get_index_v1, MATRIX_WIDTH, MATRIX_HEIGHT]
    rw [if_pos (by omega), if_pos (by omega)]
    exact ⟨rfl, rfl⟩

/-- C6 amended witness: the amended theorem instantiated at the valid
coordinate (3, 2) and the out-of-range coordinate (16, 0). -/
theorem C6_index_amended_witness :
    get_index_v0 3 2 = 2 * 16 + (15 - 3) ∧ get_index_v1 16 0 = -1 := by
  exact ⟨(C6_index_amended.1 3 2 (by decide) (by decide) (by decide) (by decide)).1,
         (C6_index_amended.2 16 0 (by decide)).2⟩

/-- C7 counterexample: the synthetic fallback overshoots the stated
[100, 350] band before reversing direction.  After 30 failed reads the
static state is (350, up); the 31st failed read returns 355 > 350. -/
theorem C7_overshoot_counterexample :
    (read_tof_sensor none (tof_sim_iter 30)).1 = 355 ∧
    ¬ ((355 : Int) ≤ 350) ∧
    tof_sim_iter 30 = { sim_dist := 350, dir := 1 } := by
  refine ⟨by decide, by decide, by decide⟩

/-- Invariant of the triangle-wave generator: the direction is always plus
or minus one, an upward state sits in [95, 350] and a downward state in
[100, 355]. -/
def tof_sim_inv (s : tof_sim_state) : Prop :=
  (s.dir = 1 ∧ 95 ≤ s.sim_dist ∧ s.sim_dist ≤ 350) ∨
  (s.dir = -1 ∧ 100 ≤ s.sim_dist ∧ s.sim_dist ≤ 355)

lemma tof_sim_inv_step (s : tof_sim_state) (h : tof_sim_inv s) :
    tof_sim_inv (tof_sim_step s) := by
  rcases h with ⟨h1, h2, h3⟩ | ⟨h1, h2, h3⟩ <;>
    · simp only [tof_sim_inv, tof_sim_step, h1] at *
      split_ifs <;> simp <;> omega

lemma tof_sim_inv_iter : ∀ n : Nat, tof_sim_inv (tof_sim_iter n)
  | 0 => Or.inl (by refine ⟨rfl, by decide, by decide⟩)
  | n + 1 => tof_sim_inv_step _ (tof_sim_inv_iter n)

/-- C7 amended: a failed hardware read never propagates the error: it
returns the next value of the deterministic triangle wave, whose values all
lie within [95, 355] (the generator overshoots each end of the nominal
[100, 350] band by one 5 mm step before reversing) and move by exactly 5 mm
per failed read; a successful read returns the raw value clamped into
[50, 400] and leaves the fallback state untouched. -/
theorem C7_fallback_amended :
    (∀ s : tof_sim_state,
      read_tof_sensor none s = ((tof_sim_step s).sim_dist, tof_sim_step s)) ∧
    (∀ n : Nat, 95 ≤ (tof_sim_iter n).sim_dist ∧ (tof_sim_iter n).sim_dist ≤ 355) ∧
    (∀ n : Nat, (tof_sim_iter (n + 1)).sim_dist = (tof_sim_iter n).sim_dist + 5 ∨
                (tof_sim_iter (n + 1)).sim_dist = (tof_sim_iter n).sim_dist - 5) ∧
    (∀ raw : Int, ∀ s : tof_sim_state,
      50 ≤ (read_tof_sensor (some raw) s).1 ∧ (read_tof_sensor (some raw) s).1 ≤ 400 ∧
      (read_tof_sensor (some raw) s).2 = s) ∧
    tof_clamp 45 = 50 ∧ tof_clamp 420 = 400 ∧ tof_clamp 200 = 200 := by
  refine ⟨fun s => rfl, ?_, ?_, ?_, by decide, by decide, by decide⟩
  · intro n
    have h := tof_sim_inv_iter n
    rcases h with ⟨h1, h2, h3⟩ | ⟨h1, h2, h3⟩ <;> omega
  · intro n
    have h := tof_sim_inv_iter n
    show (tof_sim_step (tof_sim_iter n)).sim_dist = _ ∨
         (tof_sim_step (tof_sim_iter n)).sim_dist = _
    rcases h with ⟨h1, h2, h3⟩ | ⟨h1, h2, h3⟩ <;>
      · simp only [tof_sim_step, h1]
        omega
  · intro raw s
    refine ⟨?_, ?_, rfl⟩ <;>
      · simp only [read_tof_sensor, tof_clamp]
        split_ifs <;> omega

lemma tdiv_eq_ediv_of_nonneg (a : Int) (ha : 0 ≤ a) (n : Nat) :
    Int.tdiv a (Int.ofNat n) = a / Int.ofNat n := by
  rcases Int.eq_ofNat_of_zero_le ha with ⟨m, rfl⟩
  rfl

lemma get_sensor_position_eq_floor (d : Int) (h : 50 ≤ d) :
    get_sensor_position d = min 15 (((d - 50) * 15) / 350) := by
  have hnum : (0 : Int) ≤ (d - 50) * 15 := by omega
  have htd : Int.tdiv ((d - 50) * 15) 350 = ((d - 50) * 15) / 350 :=
    tdiv_eq_ediv_of_nonneg _ hnum 350
  have hdiv : (0 : Int) ≤ ((d - 50) * 15) / 350 := Int.ediv_nonneg hnum (by decide)
  simp only [get_sensor_position, htd]
  split_ifs <;> omega

/-- C1 counterexample: the position map truncates rather than rounds.  At
the (clamped, in-range) sample d = 62 mm the exact scale value is
(62-50)*15/350 = 18/35 of a position, which rounds to 1, but the code's
integer division gives 0. -/
theorem C1_round_counterexample :
    get_sensor_position 62 = 0 ∧ position_spec_round 62 = 1 ∧ (0 : Int) ≠ 1 := by
  refine ⟨by decide, ?_, by decide⟩
  have h : (((62 : Int) : ℚ) - 50) * 15 / 350 = 18 / 35 := by norm_num
  have hr : round ((18 : ℚ) / 35) = 1 := by
    rw [round_eq]
    norm_num
  simp only [position_spec_round, h, hr]
  decide

/-- C1 amended: for every clamped sample d in [50, 400],
`get_sensor_position` equals `clamp(floor((d - 50) * 15 / 350), 0, 15)` —
the same linear scale as claimed but with truncating (floor) division in
place of rounding to nearest — and the boundary values hold: 50 mm maps to
0 and 400 mm maps to 15. -/
theorem C1_position_truncates :
    (∀ d : Int, 50 ≤ d → d ≤ 400 → get_sensor_position d = position_floor_rule d) ∧
    get_sensor_position 50 = 0 ∧ get_sensor_position 400 = 15 := by
  refine ⟨?_, by decide, by decide⟩
  intro d h1 h2
  have hnum : (0 : Int) ≤ (d - 50) * 15 := by omega
  have hdiv : (0 : Int) ≤ ((d - 50) * 15) / 350 := Int.ediv_nonneg hnum (by decide)
  rw [get_sensor_position_eq_floor d h1]
  simp only [position_floor_rule]
  omega

/-- C1 amended witness: the amended theorem applied at d = 62. -/
theorem C1_position_truncates_witness :
    get_sensor_position 62 = position_floor_rule 62 :=
  C1_position_truncates.1 62 (by decide) (by decide)

/-- C8: over the clamped operating range [50, 400] the position map is
monotonically non-decreasing in the distance, with `position(50) = 0` and
`position(400) = 15`. -/
theorem C8_position_monotone :
    (∀ d e : Int, 50 ≤ d → d ≤ e → e ≤ 400 →
      get_sensor_position d ≤ get_sensor_position e) ∧
    get_sensor_position 50 = 0 ∧ get_sensor_position 400 = 15 := by
  refine ⟨?_, by decide, by decide⟩
  intro d e hd hde he
  rw [get_sensor_position_eq_floor d hd, get_sensor_position_eq_floor e (by omega)]
  have h1 : (d - 50) * 15 ≤ (e - 50) * 15 := by omega
  have h2 : ((d - 50) * 15) / 350 ≤ ((e - 50) * 15) / 350 :=
    Int.ediv_le_ediv (by decide) h1
  omega

/-- C8 witness: monotonicity applied at the pair (100, 200), plus the
boundary values. -/
theorem C8_position_monotone_witness :
    get_sensor_position 100 ≤ get_sensor_position 200 :=
  C8_position_monotone.1 100 200 (by decide) (by decide) (by decide)

lemma get_sensor_position_bounds (d : Int) :
    0 ≤ get_sensor_position d ∧ get_sensor_position d ≤ 15 := by
  simp only [get_sensor_position]
  split_ifs <;> omega

lemma quadrant_of_bounds (d : Int) : 0 ≤ quadrant_of d ∧ quadrant_of d ≤ 3 := by
  have h := get_sensor_position_bounds d
  have hq : 0 ≤ Int.tdiv (get_sensor_position d) 4 := Int.tdiv_nonneg h.1 (by decide)
  simp only [quadrant_of]
  constructor <;> split_ifs <;> omega

/-- The candidate state of the selection machine: quadrant `q` established
at time `t0`, still in menu mode. -/
def cand_state (q : Int) (t0 : Nat) : game_state :=
  { current_mode := game_mode.menu, menu_selection := q,
    last_stable_selection := q, selection_start_time := t0 }

/-- The state right after a confirmation: the selected game is entered and
the selection globals are reset. -/
def confirmed_state (q : Int) : game_state :=
  { current_mode := game_mode_of_selection q, menu_selection := -1,
    last_stable_selection := -1, selection_start_time := 0 }

lemma game_mode_of_selection_ne_menu (q : Int) (h0 : 0 ≤ q) (h3 : q ≤ 3) :
    game_mode_of_selection q ≠ game_mode.menu := by
  have : q = 0 ∨ q = 1 ∨ q = 2 ∨ q = 3 := by omega
  rcases this with rfl | rfl | rfl | rfl <;> decide

lemma game_tick_nonmenu (s : game_state) (d : Int) (now : Nat)
    (hm : s.current_mode ≠ game_mode.menu) : game_tick s d now = (s, false) := by
  simp [game_tick, hm]

lemma game_tick_reset (s : game_state) (d : Int) (now : Nat)
    (hm : s.current_mode = game_mode.menu) (hout : d < 100 ∨ 350 < d) :
    game_tick s d now =
      ({ s with menu_selection := -1, last_stable_selection := -1,
                selection_start_time := 0 }, false) := by
  simp only [game_tick, hm, MIN_SELECTION_DISTANCE, MAX_SELECTION_DISTANCE]
  rw [if_neg (by simp), if_neg (by omega)]

lemma game_tick_establish (s : game_state) (d : Int) (now : Nat)
    (hm : s.current_mode = game_mode.menu)
    (h1 : 100 ≤ d) (h2 : d ≤ 350) (hq : quadrant_of d ≠ s.last_stable_selection) :
    game_tick s d now =
      ({ s with menu_selection := quadrant_of d,
                last_stable_selection := quadrant_of d,
                selection_start_time := now }, false) := by
  simp only [game_tick, hm, MIN_SELECTION_DISTANCE, MAX_SELECTION_DISTANCE]
  rw [if_neg (by simp), if_pos ⟨h1, h2⟩, if_pos hq]

lemma game_tick_stay (q : Int) (t0 : Nat) (d : Int) (now : Nat)
    (h1 : 100 ≤ d) (h2 : d ≤ 350) (hq : quadrant_of d = q)
    (hold : now - t0 < 5000) :
    game_tick (cand_state q t0) d now = (cand_state q t0, false) := by
  simp only [game_tick, cand_state, MIN_SELECTION_DISTANCE, MAX_SELECTION_DISTANCE,
    SELECTION_HOLD_TIME]
  rw [if_neg (by simp), if_pos ⟨h1, h2⟩, if_neg (by simp [hq]), if_neg (by omega)]

lemma game_tick_confirm (q : Int) (t0 : Nat) (d : Int) (now : Nat)
    (h1 : 100 ≤ d) (h2 : d ≤ 350) (hq : quadrant_of d = q)
    (hold : 5000 ≤ now - t0) :
    game_tick (cand_state q t0) d now = (confirmed_state q, true) := by
  simp only [game_tick, cand_state, confirmed_state, MIN_SELECTION_DISTANCE,
    MAX_SELECTION_DISTANCE, SELECTION_HOLD_TIME]
  rw [if_neg (by simp), if_pos ⟨h1, h2⟩, if_neg (by simp [hq]), if_pos (by omega)]

lemma game_run_append (s : game_state) (l : List (Int × Nat)) (p : Int × Nat) :
    game_run s (l ++ [p]) =
      ((game_tick (game_run s l).1 p.1 p.2).1,
       (game_run s l).2 + (if (game_tick (game_run s l).1 p.1 p.2).2 then 1 else 0)) := by
  simp [game_run, List.foldl_append]

lemma game_ticks_succ (ds : Nat → Int) (t0 n : Nat) :
    game_ticks ds t0 (n + 1) = game_ticks ds t0 n ++ [(ds n, t0 + 50 * n)] := by
  simp [game_ticks, List.range_succ]


lemma game_run_cand (ds : Nat → Int) (q : Int) (t0 : Nat)
    (hin : ∀ k, 100 ≤ ds k ∧ ds k ≤ 350 ∧ quadrant_of (ds k) = q) :
    ∀ n : Nat, 1 ≤ n → n ≤ 100 →
      game_run game_state_init (game_ticks ds t0 n) = (cand_state q t0, 0) := by
  intro n
  induction n with
  | zero => intro h1 _; omega
  | succ n ih =>
    intro _ h100
    rw [game_ticks_succ, game_run_append]
    by_cases h0 : n = 0
    · subst h0
      have hne : quadrant_of (ds 0) ≠ game_state_init.last_stable_selection := by
        have := (quadrant_of_bounds (ds 0)).1
        simp only [game_state_init]
        omega
      have hest := game_tick_establish game_state_init (ds 0) (t0 + 50 * 0) rfl
        (hin 0).1 (hin 0).2.1 hne
      have hrun0 : game_run game_state_init (game_ticks ds t0 0) = (game_state_init, 0) := rfl
      rw [hrun0, hest]
      simp [game_state_init, cand_state, (hin 0).2.2]
    · rw [ih (by omega) (by omega)]
      have hstay := game_tick_stay q t0 (ds n) (t0 + 50 * n)
        (hin n).1 (hin n).2.1 (hin n).2.2 (by omega)
      rw [hstay]
      simp

lemma game_run_confirmed (ds : Nat → Int) (q : Int) (t0 : Nat)
    (hin : ∀ k, 100 ≤ ds k ∧ ds k ≤ 350 ∧ quadrant_of (ds k) = q) :
    ∀ n : Nat, 101 ≤ n →
      game_run game_state_init (game_ticks ds t0 n) = (confirmed_state q, 1) := by
  have hq0 : 0 ≤ q := (hin 0).2.2 ▸ (quadrant_of_bounds (ds 0)).1
  have hq3 : q ≤ 3 := (hin 0).2.2 ▸ (quadrant_of_bounds (ds 0)).2
  intro n
  induction n with
  | zero => intro h; omega
  | succ n ih =>
    intro h101
    rw [game_ticks_succ, game_run_append]
    by_cases h100 : n = 100
    · subst h100
      rw [game_run_cand ds q t0 hin 100 (by omega) (by omega)]
      have hconf := game_tick_confirm q t0 (ds 100) (t0 + 50 * 100)
        (hin 100).1 (hin 100).2.1 (hin 100).2.2 (by omega)
      rw [hconf]
      simp
    · rw [ih (by omega)]
      have hnm := game_tick_nonmenu (confirmed_state q) (ds n) (t0 + 50 * n)
        (by simp only [confirmed_state]
            exact game_mode_of_selection_ne_menu q hq0 hq3)
      rw [hnm]
      simp

/-- C2: in menu mode, (i) a run of in-range samples all mapping to the same
quadrant, delivered on the 50 ms tick schedule from the initial idle state,
produces exactly one confirmation, namely on tick index 100 — the first
tick whose elapsed hold time reaches 5000 ms (ticks 0..100 span exactly
5000 ms) — and none before, the machine leaving menu mode for the selected
game afterwards; (ii) a sample outside the valid selection range [100, 350]
resets the machine to idle from any menu-mode state; (iii) the hold timer
restarts at the current time whenever the computed quadrant differs from
the stored candidate, which covers both re-entry from idle (stored
candidate -1, quadrants are nonnegative) and a quadrant change. -/
theorem C2_selection_machine :
    (∀ ds : Nat → Int, ∀ q : Int, ∀ t0 n : Nat,
      (∀ k, 100 ≤ ds k ∧ ds k ≤ 350 ∧ quadrant_of (ds k) = q) →
      (game_run game_state_init (game_ticks ds t0 n)).2 =
        (if 101 ≤ n then 1 else 0)) ∧
    (∀ s : game_state, ∀ d : Int, ∀ now : Nat,
      s.current_mode = game_mode.menu → (d < 100 ∨ 350 < d) →
      game_tick s d now =
        ({ s with menu_selection := -1, last_stable_selection := -1,
                  selection_start_time := 0 }, false)) ∧
    (∀ s : game_state, ∀ d : Int, ∀ now : Nat,
      s.current_mode = game_mode.menu → 100 ≤ d → d ≤ 350 →
      quadrant_of d ≠ s.last_stable_selection →
      game_tick s d now =
        ({ s with menu_selection := quadrant_of d,
                  last_stable_selection := quadrant_of d,
                  selection_start_time := now }, false)) := by
  refine ⟨?_, game_tick_reset, game_tick_establish⟩
  intro ds q t0 n hin
  by_cases h101 : 101 ≤ n
  · rw [game_run_confirmed ds q t0 hin n h101, if_pos h101]
  · rw [if_neg h101]
    by_cases h0 : n = 0
    · subst h0; rfl
    · rw [game_run_cand ds q t0 hin n (by omega) (by omega)]

/-- C2 witness: the theorem instantiated with the constant in-range sample
120 mm (quadrant 0): 101 ticks starting at time 0 yield exactly one
confirmation while 100 ticks yield none; an out-of-range sample (400 mm)
resets a candidate state to idle; and a first in-range sample re-entering
from idle establishes the candidate and restarts the timer at the current
time. -/
theorem C2_selection_machine_witness :
    (game_run game_state_init (game_ticks (fun _ => 120) 0 101)).2 = 1 ∧
    (game_run game_state_init (game_ticks (fun _ => 120) 0 100)).2 = 0 ∧
    game_tick (cand_state 0 4000) 400 4050 =
      ({ cand_state 0 4000 with menu_selection := -1, last_stable_selection := -1,
                                selection_start_time := 0 }, false) ∧
    game_tick game_state_init 120 7777 =
      ({ game_state_init with menu_selection := quadrant_of 120,
                              last_stable_selection := quadrant_of 120,
                              selection_start_time := 7777 }, false) := by
  have hin : ∀ _ : Nat, 100 ≤ (120 : Int) ∧ (120 : Int) ≤ 350 ∧ quadrant_of 120 = 0 :=
    fun _ => ⟨by decide, by decide, by decide⟩
  refine ⟨?_, ?_, ?_, ?_⟩
  · have h := C2_selection_machine.1 (fun _ => 120) 0 0 101 hin
    simpa using h
  · have h := C2_selection_machine.1 (fun _ => 120) 0 0 100 hin
    simpa using h
  · exact C2_selection_machine.2.1 (cand_state 0 4000) 400 4050 rfl (by decide)
  · exact C2_selection_machine.2.2 game_state_init 120 7777 rfl (by decide) (by decide) (by decide)
